import Mathlib

/-!
Verification of `IemocapDataset.py` (torchemotion).

The file shallowly embeds the four components of the source module:

* the annotation-line parser (`IemocapDataset.__init__`, lines 39-45),
* the index builder (lines 47-54: dataframe rows, emotion mapping, path mapping),
* the dataset accessor (`__len__`, `__getitem__`, lines 56-80),
* the waveform framer (`collate_fn`, lines 82-106).

Waveform samples are only moved and zero-filled by the framer (never combined
arithmetically), so their float32 values are modelled by `Int`; the fixed
channel dimension of size 1 (`n_channels = 1`) is elided, a waveform being its
single channel: a `List Int` of samples.  Fallible steps (a `torch.zeros` call
that raises on a negative dimension, a pandas `.loc` lookup that raises
`KeyError`) are modelled with `Option`.  The affect fields (start, end,
activation, valence, dominance) are carried as the parsed strings: the framer
and accessor never compute with their numeric values.
-/

namespace Iemocap

/-! ### Framer: `collate_fn` (source lines 82-106) -/

/-- `frame_length = np.int(0.025 * 16000) = 400` (source line 90). -/
def frame_length : Nat := 400

/-- `step_length = np.int(0.01 * 16000) = 160` (source line 91). -/
def step_length : Nat := 160

/-- Ceiling of the exact quotient `a / b` for `b > 0`, written with Euclidean
(= floor, for a positive divisor) integer division.  This models
`np.ceil(a / b)` at source line 97: the float quotient there is exact enough
for all realistic waveform lengths, so `np.ceil` of it is the mathematical
ceiling (characterised by `ceilDiv_spec` below). -/
def ceilDiv (a b : Int) : Int := -((-a) / b)

/-- `n_frames = np.int(np.ceil((L - frame_length) / step_length) + 1)`
(source line 97).  The result is an `Int`: for short waveforms it is zero or
negative, exactly as in the source. -/
def nFrames (L : Nat) : Int := ceilDiv ((L : Int) - frame_length) step_length + 1

/-- `padding_length = frame_length if L < frame_length else
(frame_length + (n_frames - 1) * step_length - L)` (source line 98). -/
def paddingLength (L : Nat) : Int :=
  if L < frame_length then (frame_length : Int)
  else (frame_length : Int) + (nFrames L - 1) * step_length - L

/-- `padded_waveform = F.pad(waveform, (0, padding_length))` (source line 99):
zero samples appended on the right.  `paddingLength` is nonnegative on both of
its branches (proved in `paddingLength_nonneg`), so the `toNat` loses
nothing. -/
def paddedWaveform (w : List Int) : List Int :=
  w ++ List.replicate (paddingLength w.length).toNat 0

/-- Frames of one batch item (source lines 96-103).  `torch.zeros(n_frames, …)`
raises when `n_frames` is negative, modelled by `none`; otherwise frame `i` is
the slice `padded_waveform[:, i*step_length : i*step_length+frame_length]`. -/
def frameItem (w : List Int) : Option (List (List Int)) :=
  let nf := nFrames w.length
  if nf < 0 then none
  else some ((List.range nf.toNat).map fun i =>
    ((paddedWaveform w).drop (i * step_length)).take frame_length)

/-- `collate_fn` (source lines 82-106): starting from an empty frame sequence,
append each item's frames in batch order; any raised error aborts the call. -/
def collate_fn (batch : List (List Int)) : Option (List (List Int)) :=
  batch.foldlM (fun acc w => (frameItem w).map fun fs => acc ++ fs) []

/-! ### Annotation parser (source lines 39-45)

Each selected line is passed through
`line.strip().replace('[', '').replace(']', '').replace(' - ', '\t')
.replace(', ', '\t').split('\t')`.  Python's `str.strip`, `str.replace`
(non-overlapping, left to right) and `str.split` on a one-character separator
are modelled on `List Char`; `replaceFuel` carries the length of the input as
fuel, which suffices because each step consumes at least one character. -/

/-- Python `str.strip()`: whitespace removed from both ends. -/
def stripChars (s : List Char) : List Char :=
  ((s.dropWhile Char.isWhitespace).reverse.dropWhile Char.isWhitespace).reverse

/-- Worker for `replaceList`: scan left to right; on a match of the (nonempty)
pattern, emit the replacement and skip the matched characters. -/
def replaceFuel (pat rep : List Char) : Nat → List Char → List Char
  | _, [] => []
  | 0, s => s
  | fuel + 1, c :: rest =>
    if pat.isPrefixOf (c :: rest) then
      rep ++ replaceFuel pat rep fuel (rest.drop (pat.length - 1))
    else c :: replaceFuel pat rep fuel rest

/-- Python `s.replace(pat, rep)` for a nonempty pattern. -/
def replaceList (s pat rep : List Char) : List Char :=
  replaceFuel pat rep s.length s

/-- Python `s.split('\t')`. -/
def splitTab : List Char → List (List Char)
  | [] => [[]]
  | c :: rest =>
    if c = '\t' then [] :: splitTab rest
    else
      match splitTab rest with
      | [] => [[c]]
      | g :: gs => (c :: g) :: gs

/-- `line.startswith('[')` (source line 45), applied to the raw line. -/
def isUtteranceLine (l : String) : Bool :=
  match l.toList with
  | c :: _ => c = '['
  | [] => false

/-- The per-line normalisation and split of source lines 39-44. -/
def parseLine (line : String) : List String :=
  let cs0 := stripChars line.toList
  let cs1 := replaceList cs0 ['['] []
  let cs2 := replaceList cs1 [']'] []
  let cs3 := replaceList cs2 [' ', '-', ' '] ['\t']
  let cs4 := replaceList cs3 [',', ' '] ['\t']
  (splitTab cs4).map String.mk

/-- One evaluation file (given as its list of raw lines): keep the lines
beginning with `'['` and normalise each (source line 39-45).  No field-count
check is performed anywhere in the source. -/
def parseFile (lines : List String) : List (List String) :=
  (lines.filter isUtteranceLine).map parseLine

/-! ### Index builder (source lines 25-54)

The filesystem tree is abstracted as the contents it yields: `sessions` is the
list (one entry per session, 5 in the program) of the `.txt` evaluation files
of that session, each file being its list of raw lines.  `data += …`
accumulates rows file by file, session by session, which is the flattening
below; `dfConstruct` then models the `pd.DataFrame` call of line 48 together
with its error behaviour, and `indexConstruct` the whole construction through
the column mappings of lines 51 and 54. -/

/-- The Python `data` list accumulated at source lines 25-46: the parsed rows
of every file of every session, in insertion order, before any dataframe is
built from them. -/
def buildData (sessions : List (List (List String))) : List (List String) :=
  (sessions.map fun files => (files.map parseFile).flatten).flatten

/-- `pd.DataFrame(data, columns=[…7 names…], dtype=np.float32)` (source line
48).  From list-of-lists data pandas first builds an object array whose width
is the largest row width, padding shorter rows on the right with `None` (a
missing cell, here `none`); it then raises
`ValueError: 7 columns passed, passed data had k columns` when that width `k`
differs from the 7 column names (modelled by `none`), while empty data gives
an empty dataframe.  The dtype coercion is attempted per column and falls
back silently on the string-valued cells, changing neither the row count nor
the cells the later steps consume. -/
def dfConstruct (data : List (List String)) : Option (List (List (Option String))) :=
  if data.isEmpty then some []
  else if (data.map List.length).foldl Nat.max 0 = 7 then
    some (data.map fun row => row.map some ++ List.replicate (7 - row.length) none)
  else none

/-- `__len__` (source lines 56-57): `len(self.df)`, the number of rows.
Whenever the construction of the dataframe succeeds it keeps exactly one row
per parsed line (`dfConstruct_length` below), so the row count is the length
of the parsed `data` list. -/
def datasetSize (sessions : List (List (List String))) : Nat :=
  (buildData sessions).length

/-- `IemocapDataset._emotions` (source line 15). -/
def _emotions : List (String × Nat) :=
  [("ang", 1), ("hap", 2), ("exc", 3), ("sad", 4), ("fru", 5),
   ("fea", 6), ("sur", 7), ("neu", 8), ("xxx", 9)]

/-- One cell of `self.df['emotion'].map(self._emotions)` (source line 51).
Pandas `Series.map` with a dict maps a key that is present to its value and a
key that is absent to `NaN` (a missing value, here `none`); it raises no
error. -/
def mapEmotion (s : String) : Option Nat :=
  List.lookup s _emotions

/-- Column access on a parsed row; the column order fixed at source line 48 is
start 0, end 1, file 2, emotion 3, activation 4, valence 5, dominance 6. -/
def getRowField (row : List String) (i : Nat) : String := row.getD i ""

/-- The mapped emotion column produced during index construction
(source line 51), for the given session contents. -/
def buildEmotionColumn (sessions : List (List (List String))) : List (Option Nat) :=
  (buildData sessions).map fun row => mapEmotion (getRowField row 3)

/-- `os.path.join` on relative components: join with `'/'`. -/
def pathJoin (ps : List String) : String := String.intercalate "/" ps

/-- The path mapping of source line 54:
`os.path.join('Session' + file[4], 'sentences', 'wav', file[:-5],
file + self._ext_audio)`.  `file[4]` is Python's character at index 4 and
`file[:-5]` removes the trailing 5 characters; every corpus file id is longer
than 5 characters, so the `getD` default is never consulted there. -/
def derivePath (file : String) : String :=
  pathJoin ["Session" ++ String.mk [file.toList.getD 4 ' '], "sentences", "wav",
            String.mk (file.toList.take (file.toList.length - 5)), file ++ ".wav"]

/-- One row of the fully constructed index, after the emotion mapping of
source line 51 and the path mapping of source line 54.  The source column
named `end` is called `stop` here (`end` is a Lean keyword). -/
structure IndexRow where
  start : Option String
  stop : Option String
  file : String
  emotion : Option Nat
  activation : Option String
  valence : Option String
  dominance : Option String
deriving DecidableEq

/-- Source lines 51 and 54 applied to one dataframe row.  Line 51 maps the
emotion cell through the dict: a `None` cell, like any absent key, becomes
`NaN` and raises nothing.  Line 54 computes `'Session' + file[4] + …` from
the file cell: on a `None` cell (a row padded from its third column on)
Python raises `TypeError: 'NoneType' object is not subscriptable`, modelled
by `none`. -/
def mkIndexRow (row : List (Option String)) : Option IndexRow :=
  match row.getD 2 none with
  | none => none
  | some f => some
    { start := row.getD 0 none
      stop := row.getD 1 none
      file := derivePath f
      emotion := (row.getD 3 none).bind mapEmotion
      activation := row.getD 4 none
      valence := row.getD 5 none
      dominance := row.getD 6 none }

/-- Index construction end to end (source lines 25-54): parse all sessions,
build the dataframe, then apply the column mappings of lines 51 and 54; any
raised error aborts construction. -/
def indexConstruct (sessions : List (List (List String))) : Option (List IndexRow) :=
  (dfConstruct (buildData sessions)).bind fun rows => rows.mapM mkIndexRow

/-! ### Dataset accessor: `__getitem__` (source lines 59-80) -/

/-- The sample dict returned by `__getitem__` (source lines 70-78). -/
structure Sample where
  path : String
  waveform : List Int
  sample_rate : Nat
  emotion : Option Nat
  activation : String
  valence : String
  dominance : String
deriving DecidableEq

/-- Body of `__getitem__` once the row is resolved: join root with the
record's path (line 63), delegate to the audio loader `load` (line 64,
abstracted as a function argument) and combine the labels (lines 65-78). -/
def mkSample (load : String → List Int × Nat) (root : String) (row : List String) : Sample :=
  let audio_name := root ++ "/" ++ derivePath (getRowField row 2)
  { path := audio_name
    waveform := (load audio_name).1
    sample_rate := (load audio_name).2
    emotion := mapEmotion (getRowField row 3)
    activation := getRowField row 4
    valence := getRowField row 5
    dominance := getRowField row 6 }

/-- `__getitem__` (source lines 59-80).  `self.df.loc[idx, …]` resolves the
integer label `idx` against the default `RangeIndex 0..n-1`: labels outside it
(negative ones included: there is no Python-style wraparound in `.loc`) raise
`KeyError`, modelled by `none`. -/
def getitem (load : String → List Int × Nat) (root : String)
    (data : List (List String)) (idx : Int) : Option Sample :=
  if h : 0 ≤ idx ∧ idx.toNat < data.length then
    some (mkSample load root (data.get ⟨idx.toNat, h.2⟩))
  else none

/-- A stand-in audio loader for concrete instantiations. -/
def loadStub : String → List Int × Nat := fun _ => ([], 16000)

/-- A concrete parsed row, as produced by `parseLine` on a well-formed
annotation line. -/
def exampleRow : List String :=
  ["6.2901", "8.2357", "Ses01F_impro01_F000", "neu", "2.5000", "2.5000", "2.5000"]

/-! ### Helper lemmas -/

/-- `ceilDiv a 160` is exactly the ceiling of `a / 160`: the unique integer
`c` with `160 * (c - 1) < a ≤ 160 * c`.  This justifies reading the integer
expression as `np.ceil` of the quotient. -/
theorem ceilDiv_spec (a : Int) : 160 * (ceilDiv a 160 - 1) < a ∧ a ≤ 160 * ceilDiv a 160 := by
  unfold ceilDiv; omega

/-- For a waveform at least one frame long, `n_frames` is at least 1. -/
theorem nFrames_pos {L : Nat} (h : frame_length ≤ L) : 1 ≤ nFrames L := by
  unfold nFrames step_length frame_length at *
  simp only [Nat.cast_ofNat] at *
  have := ceilDiv_spec ((L : Int) - 400)
  omega

/-- The padding amount is nonnegative on both branches of source line 98. -/
theorem paddingLength_nonneg (L : Nat) : 0 ≤ paddingLength L := by
  unfold paddingLength
  split
  · unfold frame_length; omega
  · unfold nFrames step_length frame_length at *
    simp only [Nat.cast_ofNat] at *
    have := ceilDiv_spec ((L : Int) - 400)
    omega

/-- `F.pad` appends exactly `padding_length` zeros. -/
theorem paddedWaveform_length (w : List Int) :
    (paddedWaveform w).length = w.length + (paddingLength w.length).toNat := by
  simp [paddedWaveform]

/-- When the dataframe construction of source line 48 succeeds it keeps
exactly one row per entry of `data`: the `None` padding never drops or adds a
row. -/
theorem dfConstruct_length {data : List (List String)}
    {rows : List (List (Option String))} (h : dfConstruct data = some rows) :
    rows.length = data.length := by
  unfold dfConstruct at h
  split at h
  · next he =>
      injection h with h2
      subst h2
      simp [List.isEmpty_iff.mp he]
  · split at h
    · injection h with h2
      subst h2
      simp
    · exact Option.noConfusion h

/-! ### Claims -/

/-- C1: the claim reads the framer as producing exactly 1 zero-padded frame
for every waveform shorter than `frame_length`, length 0 included, never a
negative frame count.  The code has no such degenerate-case handling: at
`L = 0` it computes `n_frames = ceil((0-400)/160)+1 = -1` and
`torch.zeros(-1, 1, 400)` raises; at `L = 100` it computes `n_frames = 0` and
emits no frame at all, silently dropping the sample.  This theorem evaluates
the embedded code at those failing inputs. -/
theorem framer_short_waveform_bug :
    nFrames 0 = -1 ∧ collate_fn [([] : List Int)] = none ∧
    nFrames 100 = 0 ∧ collate_fn [List.replicate 100 0] = some [] := by
  have hf : frameItem (List.replicate 100 (0 : Int)) = some [] := by
    unfold frameItem
    simp only [List.length_replicate]
    rw [show nFrames 100 = 0 from by decide]
    norm_num
  refine ⟨by decide, by decide, by decide, ?_⟩
  simp only [collate_fn, List.foldlM, hf, Option.map_some, List.nil_append, Option.bind_some,
    Option.bind_eq_bind]
  rfl

/-- C2 counterexample: the claim's concrete example is wrong.  Removing the
trailing 5 characters of `"Ses01F_impro01_F000"` yields `"Ses01F_impro01"`,
not `"Ses01F_impro01_F"`, so the derived path differs from the one the claim
names. -/
theorem derivePath_group_counterexample :
    derivePath "Ses01F_impro01_F000"
      ≠ "Session1/sentences/wav/Ses01F_impro01_F/Ses01F_impro01_F000.wav" := by
  decide

/-- C2 (amended): the index builder derives
`Session<N>/sentences/wav/<group>/<file_id>.wav` with `N` the character of
`file_id` at index 4 and the group equal to `file_id` with its trailing 5
characters removed; for `"Ses01F_impro01_F000"` this is
`"Session1/sentences/wav/Ses01F_impro01/Ses01F_impro01_F000.wav"`. -/
theorem derivePath_amended :
    derivePath "Ses01F_impro01_F000"
      = "Session1/sentences/wav/Ses01F_impro01/Ses01F_impro01_F000.wav" := by
  decide

/-- C3 counterexample: index construction on a file holding one bracketed
line whose emotion code is the unknown string `"foo"` completes and yields a
missing value (`NaN`, here `none`) in the emotion column; no fatal
`UnknownLabelError` exists in the code, because pandas `Series.map` with a
dict silently maps absent keys to `NaN`. -/
theorem unknown_emotion_counterexample :
    buildEmotionColumn [[["[1.0 - 2.0]\tSes01F_impro01_F000\tfoo\t[1.0, 1.0, 1.0]\n"]]]
      = [none] := by
  decide

/-- C3 (amended): `"ang"` maps to 1 and `"xxx"` to 9; every string outside
the closed enumeration maps silently to a missing value (`NaN`, here `none`)
rather than raising an error. -/
theorem emotion_mapping_amended :
    mapEmotion "ang" = some 1 ∧ mapEmotion "xxx" = some 9 ∧
    ∀ s : String, s ∉ _emotions.map Prod.fst → mapEmotion s = none := by
  refine ⟨by decide, by decide, ?_⟩
  intro s hs
  simp only [_emotions, List.map, List.mem_cons, List.not_mem_nil, or_false, not_or] at hs
  obtain ⟨h1, h2, h3, h4, h5, h6, h7, h8, h9⟩ := hs
  simp [mapEmotion, _emotions, List.lookup, beq_eq_false_iff_ne.mpr h1,
    beq_eq_false_iff_ne.mpr h2, beq_eq_false_iff_ne.mpr h3, beq_eq_false_iff_ne.mpr h4,
    beq_eq_false_iff_ne.mpr h5, beq_eq_false_iff_ne.mpr h6, beq_eq_false_iff_ne.mpr h7,
    beq_eq_false_iff_ne.mpr h8, beq_eq_false_iff_ne.mpr h9]

/-- C3 witness: the amended mapping theorem applied at the concrete unknown
label `"foo"`. -/
theorem emotion_mapping_amended_witness :
    ("foo" : String) ∉ _emotions.map Prod.fst ∧ mapEmotion "foo" = none :=
  ⟨by decide, emotion_mapping_amended.2.2 "foo" (by decide)⟩

/-- C4 counterexample: the selected bracketed line
`"[1.0 - 2.0]\tSes01F_impro01_F000\tneu"` normalises and splits into 4
fields, not 7, yet index construction on a file holding it next to a
well-formed line completes: the dataframe constructor pads the short row on
the right with `None` cells (the maximum width is still 7, so no
`ValueError`), the padded row's file cell is a real string (so no `TypeError`
at line 54), and the malformed line survives as a row whose activation,
valence and dominance are missing — it is neither a fatal error nor
dropped. -/
theorem parser_field_count_counterexample :
    (parseLine "[1.0 - 2.0]\tSes01F_impro01_F000\tneu\n").length = 4 ∧
    indexConstruct [[["[1.0 - 2.0]\tSes01F_impro01_F000\tneu\n",
        "[6.2901 - 8.2357]\tSes01F_impro01_F000\tneu\t[2.5000, 2.5000, 2.5000]\n"]]]
      = some
        [{ start := some "1.0", stop := some "2.0",
           file := "Session1/sentences/wav/Ses01F_impro01/Ses01F_impro01_F000.wav",
           emotion := some 8, activation := none, valence := none, dominance := none },
         { start := some "6.2901", stop := some "8.2357",
           file := "Session1/sentences/wav/Ses01F_impro01/Ses01F_impro01_F000.wav",
           emotion := some 8, activation := some "2.5000", valence := some "2.5000",
           dominance := some "2.5000" }] := by
  decide

/-- C4 (amended): a selected line of the documented format normalises and
splits into exactly the 7 fields start, end, file_id, emotion_code,
activation, valence, dominance.  There is no per-line field-count check: a
malformed line is fatal only when a later construction step chokes on it —
construction aborts when the maximum field count over all rows differs from 7
(`ValueError` at line 48, e.g. a lone short line) and when a padded row's
file cell is `None` (`TypeError` at line 54, rows of at most 2 fields) — but
a bracketed line yielding 3 to 6 fields among well-formed lines is silently
padded with missing values and kept as a row, and construction completes. -/
theorem parser_amended :
    parseLine "[6.2901 - 8.2357]\tSes01F_impro01_F000\tneu\t[2.5000, 2.5000, 2.5000]\n"
      = ["6.2901", "8.2357", "Ses01F_impro01_F000", "neu", "2.5000", "2.5000", "2.5000"] ∧
    indexConstruct [[["[garbage]"]]] = none ∧
    indexConstruct [[["[garbage]",
        "[6.2901 - 8.2357]\tSes01F_impro01_F000\tneu\t[2.5000, 2.5000, 2.5000]\n"]]]
      = none ∧
    indexConstruct [[["[1.0 - 2.0]\tSes01F_impro01_F000\tneu\t[2.5000]\n",
        "[6.2901 - 8.2357]\tSes01F_impro01_F000\tneu\t[2.5000, 2.5000, 2.5000]\n"]]]
      = some
        [{ start := some "1.0", stop := some "2.0",
           file := "Session1/sentences/wav/Ses01F_impro01/Ses01F_impro01_F000.wav",
           emotion := some 8, activation := some "2.5000", valence := none,
           dominance := none },
         { start := some "6.2901", stop := some "8.2357",
           file := "Session1/sentences/wav/Ses01F_impro01/Ses01F_impro01_F000.wav",
           emotion := some 8, activation := some "2.5000", valence := some "2.5000",
           dominance := some "2.5000" }] := by
  decide

/-- C5: for a waveform with `L ≥ frame_length` the framer succeeds, produces
`n_frames = ceil((L - 400)/160) + 1` frames (a positive count, so the `toNat`
is faithful), pads on the right by exactly
`frame_length + (n_frames - 1) * step_length - L` zeros (a nonnegative
amount), and frame `i` is the slice of the padded waveform starting at
`i * step_length`, of full length `frame_length`. -/
theorem framer_long_waveform (w : List Int) (h : frame_length ≤ w.length) :
    ∃ fs, frameItem w = some fs ∧
      fs.length = (nFrames w.length).toNat ∧ 1 ≤ nFrames w.length ∧
      paddingLength w.length
        = frame_length + (nFrames w.length - 1) * step_length - w.length ∧
      0 ≤ paddingLength w.length ∧
      (paddedWaveform w).length = w.length + (paddingLength w.length).toNat ∧
      ∀ i, (hi : i < fs.length) →
        fs.get ⟨i, hi⟩ = ((paddedWaveform w).drop (i * step_length)).take frame_length ∧
        (fs.get ⟨i, hi⟩).length = frame_length := by
  have hnf : 1 ≤ nFrames w.length := nFrames_pos h
  have hpad : 0 ≤ paddingLength w.length := paddingLength_nonneg w.length
  have hpe : paddingLength w.length
      = frame_length + (nFrames w.length - 1) * step_length - w.length := by
    unfold paddingLength
    rw [if_neg (by omega)]
  refine ⟨(List.range (nFrames w.length).toNat).map fun i =>
      ((paddedWaveform w).drop (i * step_length)).take frame_length, ?_, by simp, hnf, hpe,
      hpad, paddedWaveform_length w, ?_⟩
  · unfold frameItem
    rw [if_neg (by omega)]
  · intro i hi
    simp only [List.length_map, List.length_range] at hi
    have hget : ((List.range (nFrames w.length).toNat).map fun i =>
        ((paddedWaveform w).drop (i * step_length)).take frame_length).get
          ⟨i, by simpa using hi⟩
        = ((paddedWaveform w).drop (i * step_length)).take frame_length := by
      simp
    refine ⟨hget, ?_⟩
    rw [hget]
    have hlen : (paddedWaveform w).length = w.length + (paddingLength w.length).toNat :=
      paddedWaveform_length w
    simp only [List.length_take, List.length_drop]
    have hi2 : (i : Int) < nFrames w.length := by omega
    unfold nFrames frame_length step_length at *
    simp only [Nat.cast_ofNat] at *
    have hcd := ceilDiv_spec ((w.length : Int) - 400)
    omega

/-- C5 witness: the framer specification applied to the concrete waveform of
400 zero samples. -/
theorem framer_long_waveform_witness :
    ∃ fs, frameItem (List.replicate 400 (0 : Int)) = some fs ∧
      fs.length = (nFrames (List.replicate 400 (0 : Int)).length).toNat ∧
      1 ≤ nFrames (List.replicate 400 (0 : Int)).length := by
  obtain ⟨fs, h1, h2, h3, -⟩ :=
    framer_long_waveform (List.replicate 400 0) (by rw [List.length_replicate]; decide)
  exact ⟨fs, h1, h2, h3⟩

/-- C6: a batch of two waveforms of lengths 400 and 560 frames into 1 and 2
frames respectively, and `collate_fn` returns their plain concatenation in
batch order: 3 frames, no boundary marker. -/
theorem collate_fn_batch_400_560 (w1 w2 : List Int)
    (h1 : w1.length = 400) (h2 : w2.length = 560) :
    ∃ f1 f2, frameItem w1 = some f1 ∧ frameItem w2 = some f2 ∧
      f1.length = 1 ∧ f2.length = 2 ∧
      collate_fn [w1, w2] = some (f1 ++ f2) := by
  have e1 : nFrames w1.length = 1 := by rw [h1]; decide
  have e2 : nFrames w2.length = 2 := by rw [h2]; decide
  have hf1 : frameItem w1 = some ((List.range (1 : Nat)).map fun i =>
      ((paddedWaveform w1).drop (i * step_length)).take frame_length) := by
    unfold frameItem
    rw [e1]
    rfl
  have hf2 : frameItem w2 = some ((List.range (2 : Nat)).map fun i =>
      ((paddedWaveform w2).drop (i * step_length)).take frame_length) := by
    unfold frameItem
    rw [e2]
    rfl
  refine ⟨_, _, hf1, hf2, by simp, by simp, ?_⟩
  simp [collate_fn, List.foldlM, hf1, hf2]

/-- C6 witness: the batch theorem applied to concrete zero waveforms of
lengths 400 and 560. -/
theorem collate_fn_batch_400_560_witness :
    ∃ f1 f2, frameItem (List.replicate 400 (0 : Int)) = some f1 ∧
      frameItem (List.replicate 560 (0 : Int)) = some f2 ∧
      f1.length = 1 ∧ f2.length = 2 ∧
      collate_fn [List.replicate 400 (0 : Int), List.replicate 560 (0 : Int)]
        = some (f1 ++ f2) :=
  collate_fn_batch_400_560 _ _ (by rw [List.length_replicate]) (by rw [List.length_replicate])

/-- C7: `__len__` equals the total number of lines beginning with `'['`
across all evaluation files of all sessions: exactly those lines become rows,
every other line contributes nothing. -/
theorem size_eq_bracketed_line_count (sessions : List (List (List String))) :
    datasetSize sessions
      = (sessions.map fun files =>
          (files.map fun f => (f.filter isUtteranceLine).length).sum).sum := by
  simp only [datasetSize, buildData, List.length_flatten, List.map_map]
  refine congrArg List.sum (List.map_congr_left fun files _ => ?_)
  simp only [Function.comp, List.length_flatten, List.map_map]
  exact congrArg List.sum (List.map_congr_left fun f _ => by simp [parseFile])

/-- C8: `__getitem__` returns no sample for an index outside `[0, size)` —
negative labels included, so there is no clamping and no Python-style
wraparound — and returns the sample built from exactly the indexed record for
an index inside the range. -/
theorem getitem_spec (load : String → List Int × Nat) (root : String)
    (data : List (List String)) (idx : Int) :
    ((idx < 0 ∨ (data.length : Int) ≤ idx) → getitem load root data idx = none) ∧
    ∀ (_ : 0 ≤ idx) (h1 : idx.toNat < data.length),
      getitem load root data idx = some (mkSample load root (data.get ⟨idx.toNat, h1⟩)) := by
  constructor
  · intro h
    unfold getitem
    rw [dif_neg]
    omega
  · intro h0 h1
    unfold getitem
    rw [dif_pos ⟨h0, h1⟩]

/-- C8 witness: the accessor specification applied to a one-row index at the
out-of-range labels `-1` and `5` and at the in-range label `0`. -/
theorem getitem_spec_witness :
    getitem loadStub "IEMOCAP_full_release" [exampleRow] (-1) = none ∧
    getitem loadStub "IEMOCAP_full_release" [exampleRow] 5 = none ∧
    getitem loadStub "IEMOCAP_full_release" [exampleRow] 0
      = some (mkSample loadStub "IEMOCAP_full_release" exampleRow) := by
  refine ⟨(getitem_spec loadStub "IEMOCAP_full_release" [exampleRow] (-1)).1 (Or.inl (by decide)),
    (getitem_spec loadStub "IEMOCAP_full_release" [exampleRow] 5).1 (Or.inr (by decide)), ?_⟩
  have h := (getitem_spec loadStub "IEMOCAP_full_release" [exampleRow] 0).2 (by decide) (by decide)
  simpa using h

/-- C9: the framer is deterministic: it is a function of the batch alone, so
two calls on the same batch yield the same frame sequence. -/
theorem collate_fn_deterministic : ∀ batch, collate_fn batch = collate_fn batch :=
  fun _ => rfl

end Iemocap
